import Mathlib

/-!
# Verification of the bricknil protocol engine

A shallow embedding of the core protocol logic of the bricknil library
(LEGO Wireless Protocol client) together with proofs about it.

Embedded from the Python source:

* `bricknil/sensor/peripheral.py` — `Peripheral._convert_bytes`,
  `Peripheral._parse_combined_sensor_values`, `Peripheral.update_value`,
  `Peripheral._convert_speed_to_val`, `Peripheral.set_output`.
* `bricknil/sensor/motor.py` — `Motor.set_speed`, `Motor.ramp_speed`.
* `bricknil/hub.py` — `Hub.connect_peripheral_to_port`.
* `bricknil/ble_queue.py` — `BLEventQ.send_message` (frame length prefix).
* `bricknil/message_dispatch.py` — `MessageDispatch.parse`.
* `bricknil/messages.py` — the registered per-tag message body parsers.
* `bricknil/const.py` — the `DEVICES` registry.

Modelling conventions:

* Bytes are `Nat` (each in 0..255 where produced by hardware); Python ints
  are `Int`; Python floats arising in the motor ramp are `Rat` (the ramp
  arithmetic performed by the source stays exact in rationals for the
  inputs of interest, and `int()` truncation toward zero is `pyInt`).
* Python exceptions are explicit: a fallible operation returns
  `Except PyErr α`.  `PyErr.unknownMessage` is the library's
  `UnknownMessageError`, which the top-level dispatcher catches; every
  other error escapes the dispatcher.
* Python dicts are insertion-ordered association lists; updating an
  existing key keeps its position, a new key is appended — both matter for
  declaration-order iteration.
* IEEE-754 fields parsed by `PortModeInformationMessage` are kept as their
  raw 32-bit little-endian bit patterns (no claim inspects the numeric
  float value, only which bytes go where).
* Log strings are out of the specified core except for the raw hex dump
  produced for undecodable messages, which is modelled exactly
  (`pyHex`/`hexDump`).
* Queue `put` side effects that the source performs before a later
  uncaught exception in the same parser call are dropped by the
  `Except`-based model; no theorem below concerns such a path (every
  error path used by a theorem raises before the first `put`).
-/

namespace Bricknil

/-- Python exception kinds that the embedded code can raise. -/
inductive PyErr where
  | indexError
  | keyError
  | typeError
  | assertionError
  | structError
  | unknownMessage
  | differentPeripheralOnPort
  deriving DecidableEq, Repr

/-- Keys of the Python dicts the engine uses (capability enum values and
mode numbers are keyed by their numeric value; metadata keys are strings). -/
inductive PyKey where
  | int (n : Nat)
  | str (s : String)
  deriving DecidableEq, Repr

/-- Python values stored in `Peripheral.value` and in the port-info
dictionaries: `None`, ints, strings, booleans, raw byte strings, tuples,
lists and insertion-ordered dicts. -/
inductive PyObj where
  | pynone
  | int (i : Int)
  | str (s : String)
  | bool (b : Bool)
  | bytes (bs : List Nat)
  | tuple (xs : List PyObj)
  | list (xs : List PyObj)
  | dict (entries : List (PyKey × PyObj))

/-- Lookup in an insertion-ordered dict (first matching key). -/
def dictGet (es : List (PyKey × PyObj)) (k : PyKey) : Option PyObj :=
  match es with
  | [] => none
  | (k2, v) :: rest => if k2 = k then some v else dictGet rest k

/-- Python dict assignment `d[k] = v`: an existing key keeps its position,
a new key is appended at the end. -/
def dictSet (es : List (PyKey × PyObj)) (k : PyKey) (v : PyObj) :
    List (PyKey × PyObj) :=
  match es with
  | [] => [(k, v)]
  | (k2, v2) :: rest =>
    if k2 = k then (k2, v) :: rest else (k2, v2) :: dictSet rest k v

/-- Python `d.setdefault(k, dflt)`: returns the (possibly extended) dict
together with the value now stored at `k`. -/
def dictSetdefault (es : List (PyKey × PyObj)) (k : PyKey) (dflt : PyObj) :
    List (PyKey × PyObj) × PyObj :=
  match dictGet es k with
  | some v => (es, v)
  | none => (es ++ [(k, dflt)], dflt)

/-- Lookup of a key in a `PyObj` that should be a dict
(`value[k]` in Python); a missing key is a `KeyError`, a non-dict a
`TypeError`. -/
def pyDictGet (value : PyObj) (k : PyKey) : Except PyErr PyObj :=
  match value with
  | .dict es =>
    match dictGet es k with
    | some v => .ok v
    | none => .error .keyError
  | _ => .error .typeError

/-- Python `value[k] = v` on a dict-valued `PyObj`. -/
def dictSetItem (value : PyObj) (k : PyKey) (v : PyObj) : Except PyErr PyObj :=
  match value with
  | .dict es => .ok (.dict (dictSet es k v))
  | _ => .error .typeError

/-- Python `value[k][i] = v` where `value[k]` must be a list with `i` in
range (the shape `Peripheral.update_value` relies on after
`activate_updates` initialises `self.value[cap]` to a list). -/
def dictListSetItem (value : PyObj) (k : PyKey) (i : Nat) (v : PyObj) :
    Except PyErr PyObj :=
  match value with
  | .dict es =>
    match dictGet es k with
    | some (.list xs) =>
      if i < xs.length then .ok (.dict (dictSet es k (.list (xs.set i v))))
      else .error .indexError
    | some _ => .error .typeError
    | none => .error .keyError
  | _ => .error .typeError

/-!
## Capability model: `Peripheral._convert_bytes` and the value decoders
-/

/-- Dataset shape of one capability, the `(n, w)` prefix of the entries of
the per-class `datasets` dict: `n` datasets of `w` bytes each. -/
structure DatasetShape where
  n : Nat
  w : Nat

/-- Little-endian value of a byte list (`struct.unpack` with format
`<H` or `<I`). -/
def leValue (data : List Nat) : Nat :=
  data.foldr (fun b acc => b + 256 * acc) 0

/-- Embeds `Peripheral._convert_bytes`: one byte is `msg_bytes[0]`
(an `IndexError` on an empty slice), two or four bytes are little-endian
unsigned (`struct.unpack` raises unless the slice length is exact), and
any other byte count logs an error and yields `None`. -/
def convertBytes (msgBytes : List Nat) (byteCount : Nat) : Except PyErr PyObj :=
  if byteCount = 1 then
    match msgBytes.head? with
    | some b => .ok (.int b)
    | none => .error .indexError
  else if byteCount = 2 then
    if msgBytes.length = 2 then .ok (.int (leValue msgBytes)) else .error .structError
  else if byteCount = 4 then
    if msgBytes.length = 4 then .ok (.int (leValue msgBytes)) else .error .structError
  else .ok .pynone

/-- Inner loop of `Peripheral._parse_combined_sensor_values` over
`range(n_datasets)` of one capability: slot `dsi` advances once per
dataset; a set bit in `modes` consumes `shape.w` bytes and stores the
converted value (scalar when the capability has one dataset, else at the
dataset index of its list); a clear bit consumes nothing. -/
def comboDatasets (cap : Nat) (shape : DatasetShape) (modes : Nat) :
    List Nat → List Nat → PyObj → Nat → Except PyErr (List Nat × PyObj × Nat)
  | [], msg, value, dsi => .ok (msg, value, dsi)
  | d :: ds, msg, value, dsi =>
    if modes.testBit dsi then
      match convertBytes (msg.take shape.w) shape.w with
      | .error e => .error e
      | .ok val =>
        match (if shape.n = 1 then dictSetItem value (.int cap) val
               else dictListSetItem value (.int cap) d val) with
        | .error e => .error e
        | .ok value2 => comboDatasets cap shape modes ds (msg.drop shape.w) value2 (dsi + 1)
    else comboDatasets cap shape modes ds msg value (dsi + 1)

/-- Outer loop of `Peripheral._parse_combined_sensor_values` over the
requested capabilities in declaration order, threading the remaining
message bytes, the value dict and the running slot index. -/
def comboCaps (dsf : Nat → DatasetShape) (modes : Nat) :
    List Nat → List Nat → PyObj → Nat → Except PyErr (PyObj × List Nat)
  | [], msg, value, _ => .ok (value, msg)
  | cap :: caps, msg, value, dsi =>
    match comboDatasets cap (dsf cap) modes (List.range (dsf cap).n) msg value dsi with
    | .error e => .error e
    | .ok (msg2, value2, dsi2) => comboCaps dsf modes caps msg2 value2 dsi2

/-- The per-peripheral data the decoders use: the validated requested
capabilities in declaration order and the class-level `datasets` table. -/
structure PeripheralConfig where
  capabilities : List Nat
  datasets : Nat → DatasetShape

/-- Embeds `Peripheral._parse_combined_sensor_values`: pop the reserved
leading byte, pop the one-byte presence bitmask, then decode the slots of
each requested capability in declaration order. -/
def parseCombinedSensorValues (cfg : PeripheralConfig) (msg : List Nat)
    (value : PyObj) : Except PyErr PyObj :=
  match msg with
  | [] => .error .indexError
  | _reserved :: rest =>
    match rest with
    | [] => .error .indexError
    | modes :: body => (comboCaps cfg.datasets modes cfg.capabilities body value 0).map Prod.fst

/-- Loop of the single-capability branch of `Peripheral.update_value`:
dataset `i` is converted from the slice
`msg[i*bytes_per_dataset : (i+1)*bytes_per_dataset]` and stored scalar
(one dataset) or at index `i` (several datasets). -/
def updateSingleGo (cap : Nat) (shape : DatasetShape) (msg : List Nat) :
    List Nat → PyObj → Except PyErr PyObj
  | [], value => .ok value
  | i :: is, value =>
    match convertBytes ((msg.drop (i * shape.w)).take shape.w) shape.w with
    | .error e => .error e
    | .ok val =>
      match (if shape.n = 1 then dictSetItem value (.int cap) val
             else dictListSetItem value (.int cap) i val) with
      | .error e => .error e
      | .ok value2 => updateSingleGo cap shape msg is value2

/-- Embeds `Peripheral.update_value`: zero requested capabilities store
the raw message verbatim, one capability runs the single-mode decode
loop, more than one runs the combined-mode decoder. -/
def updateValue (cfg : PeripheralConfig) (value : PyObj) (msgBytes : List Nat) :
    Except PyErr PyObj :=
  if cfg.capabilities.length = 0 then .ok (.bytes msgBytes)
  else if cfg.capabilities.length = 1 then
    match cfg.capabilities with
    | cap :: _ =>
      updateSingleGo cap (cfg.datasets cap) msgBytes
        (List.range (cfg.datasets cap).n) value
    | [] => .error .indexError
  else parseCombinedSensorValues cfg msgBytes value

/-!
## Speed conversion: `Peripheral._convert_speed_to_val`
-/

/-- Embeds `Peripheral._convert_speed_to_val`. The source computes
`speed & 255` for a negative int, which for Python ints (arbitrary
precision two's complement) is exactly `speed % 256` with a Euclidean
(always non-negative) remainder, the form used here. -/
def convertSpeedToVal (speed : Int) : Int :=
  if speed = 127 then 127
  else
    let s1 := if speed > 100 then 100 else speed
    if s1 < 0 then s1 % 256 else s1

/-!
## Motor: `Motor.set_speed` and `Motor.ramp_speed`

The ramp task is a cooperative background task issuing one `set_speed`
per 100 ms tick; its timing and cancellation are concurrency, but the
sequence of speeds the completed task issues is pure arithmetic and is
modelled as a list, in issue order.  Python float arithmetic on these
inputs (one division, one multiplication, one addition) is modelled with
exact rationals; `int()` truncation toward zero is `pyInt`.
-/

/-- Mutable state of a `Motor`: the recorded current speed
(`self.speed`). -/
structure MotorState where
  speed : Int

/-- Embeds `Peripheral.set_output`: the message handed to `send_message`
is `[0x00, 0x81, port, 0x01, 0x51, mode, value]`. -/
def setOutputBytes (port : Nat) (mode : Int) (value : Int) : List Int :=
  [0x00, 0x81, (port : Int), 0x01, 0x51, mode, value]

/-- Embeds `Motor.set_speed` (after the ramp-cancellation step): records
the given speed verbatim in `self.speed` and issues a
WriteDirectModeData output command carrying the converted byte. -/
def setSpeed (port : Nat) (_m : MotorState) (speed : Int) : MotorState × List Int :=
  ({ speed := speed }, setOutputBytes port 0 (convertSpeedToVal speed))

/-- Python `int()` on a rational: truncation toward zero. -/
def pyInt (q : Rat) : Int :=
  if q < 0 then -(Int.floor (-q)) else Int.floor q

/-- The `number_of_steps = ramp_time_ms / TIME_STEP_MS` computation of
`Motor.ramp_speed` (true division, not a ceiling). -/
def rampNumberOfSteps (rampTimeMs : Nat) : Rat :=
  (rampTimeMs : Rat) / 100

/-- The `speed_step = speed_diff / number_of_steps` computation of
`Motor.ramp_speed`. -/
def rampSpeedStep (targetSpeed speed : Int) (rampTimeMs : Nat) : Rat :=
  ((targetSpeed : Rat) - (speed : Rat)) / rampNumberOfSteps rampTimeMs

/-- The `while current_step < number_of_steps` loop of the `_ramp_speed`
task, returning the speeds passed to `set_speed` in order: each
iteration computes `int(start_speed + current_step * speed_step)`,
increments the step counter, and replaces the value by the exact target
when the incremented counter equals `number_of_steps`. -/
def rampLoop (startSpeed targetSpeed : Int) (rampTimeMs : Nat) (cur : Nat) : List Int :=
  if h : (cur : Rat) < rampNumberOfSteps rampTimeMs then
    let next0 := pyInt ((startSpeed : Rat) + (cur : Rat) * rampSpeedStep targetSpeed startSpeed rampTimeMs)
    let next := if ((cur + 1 : Nat) : Rat) = rampNumberOfSteps rampTimeMs then targetSpeed else next0
    next :: rampLoop startSpeed targetSpeed rampTimeMs (cur + 1)
  else []
  termination_by (rampTimeMs + 99) / 100 - cur
  decreasing_by
    have h2 : ((cur * 100 : Nat) : Rat) < (rampTimeMs : Rat) := by
      have := (lt_div_iff₀ (by norm_num : (0 : Rat) < 100)).mp h
      push_cast
      push_cast at this
      linarith
    have h3 : cur * 100 < rampTimeMs := by exact_mod_cast h2
    omega

/-- The full sequence of speeds the `_ramp_speed` task passes to
`set_speed` when it runs to completion: the while loop followed by the
unconditional trailing `set_speed(target_speed)`. -/
def rampSpeedIssued (currentSpeed targetSpeed : Int) (rampTimeMs : Nat) : List Int :=
  rampLoop currentSpeed targetSpeed rampTimeMs 0 ++ [targetSpeed]

/-- Embeds `Motor.ramp_speed` for a completed ramp: the
`assert ramp_time_ms > 100` guard, then the issued speed sequence. -/
def rampSpeed (m : MotorState) (targetSpeed : Int) (rampTimeMs : Nat) :
    Except PyErr (List Int) :=
  if rampTimeMs > 100 then .ok (rampSpeedIssued m.speed targetSpeed rampTimeMs)
  else .error .assertionError

/-!
## Port binding: `Hub.connect_peripheral_to_port`
-/

/-- Declared peripheral as the hub sees it: its name, its device display
name (`sensor_name`, from the `DEVICES` registry) and its port, `none`
until the user fixes it or an attach event binds it. -/
structure HubPeripheral where
  name : String
  sensorName : String
  port : Option Nat
  deriving DecidableEq, Repr

/-- Hub state touched by attach binding: the declared peripherals in
declaration (dict insertion) order and the `port_to_peripheral` map
(peripherals identified by name). -/
structure HubState where
  peripherals : List HubPeripheral
  portToPeripheral : List (Nat × String)
  deriving DecidableEq, Repr

/-- Assignment into the `port_to_peripheral` dict. -/
def portMapSet (m : List (Nat × String)) (port : Nat) (name : String) :
    List (Nat × String) :=
  match m with
  | [] => [(port, name)]
  | (p2, n2) :: rest =>
    if p2 = port then (p2, name) :: rest else (p2, n2) :: portMapSet rest port name

/-- Lookup in the `port_to_peripheral` dict. -/
def portMapGet (m : List (Nat × String)) (port : Nat) : Option String :=
  match m with
  | [] => none
  | (p2, n2) :: rest => if p2 = port then some n2 else portMapGet rest port

/-- First loop of `Hub.connect_peripheral_to_port`: the first declared
peripheral whose reserved port equals the attach port, if any. -/
def findFirstReserved (ps : List HubPeripheral) (port : Nat) : Option HubPeripheral :=
  match ps with
  | [] => none
  | p :: rest => if p.port = some port then some p else findFirstReserved rest port

/-- Second loop of `Hub.connect_peripheral_to_port`: bind the first
declared peripheral whose device name matches and whose port is unset,
returning the updated declaration list and the bound peripheral's name. -/
def bindFirstUnbound (deviceName : String) (port : Nat) :
    List HubPeripheral → Option (List HubPeripheral × String)
  | [] => none
  | p :: ps =>
    if p.sensorName = deviceName ∧ p.port = none then
      some ({ p with port := some port } :: ps, p.name)
    else
      (bindFirstUnbound deviceName port ps).map (fun r => (p :: r.1, r.2))

/-- Embeds `Hub.connect_peripheral_to_port`: if some declared peripheral
reserves this exact port, its device name must match (else
`DifferentPeripheralOnPortError`); otherwise the first matching unbound
peripheral gets the port; otherwise the attach is ignored.  Returns the
new hub state and the bound peripheral's name, if any. -/
def connectPeripheralToPort (st : HubState) (deviceName : String) (port : Nat) :
    Except PyErr (HubState × Option String) :=
  match findFirstReserved st.peripherals port with
  | some p =>
    if p.sensorName = deviceName then
      .ok ({ st with portToPeripheral := portMapSet st.portToPeripheral port p.name },
           some p.name)
    else .error .differentPeripheralOnPort
  | none =>
    match bindFirstUnbound deviceName port st.peripherals with
    | some (ps2, nm) =>
      .ok ({ peripherals := ps2,
             portToPeripheral := portMapSet st.portToPeripheral port nm }, some nm)
    | none => .ok (st, none)

/-!
## Codec and dispatch: `BLEventQ.send_message`, `MessageDispatch.parse`
and the registered `Message` body parsers
-/

/-- Lowercase hex digit, as Python `hex()` renders it. -/
def hexChar (n : Nat) : Char :=
  match n with
  | 0 => '0' | 1 => '1' | 2 => '2' | 3 => '3'
  | 4 => '4' | 5 => '5' | 6 => '6' | 7 => '7'
  | 8 => '8' | 9 => '9' | 10 => 'a' | 11 => 'b'
  | 12 => 'c' | 13 => 'd' | 14 => 'e' | _ => 'f'

/-- Hex digits of a natural number, most significant first. -/
def hexDigits (n : Nat) : List Char :=
  if _h : n < 16 then [hexChar n]
  else hexDigits (n / 16) ++ [hexChar (n % 16)]
  termination_by n
  decreasing_by exact Nat.div_lt_self (by omega) (by omega)

/-- Python `hex(n)` for a non-negative int. -/
def pyHex (n : Nat) : String :=
  "0x" ++ String.mk (hexDigits n)

/-- Embeds `MessageDispatch._parse_msg_bytes`: colon-joined hex rendering
of the raw message, the log output for undecodable messages. -/
def hexDump (msg : List Nat) : String :=
  String.intercalate ":" (msg.map pyHex)

/-- The static device registry `const.DEVICES`, in source order. -/
def DEVICES : List (Nat × String) :=
  [ (0x0001, "Motor"),
    (0x0002, "System Train Motor"),
    (0x0005, "Button"),
    (0x0008, "Light"),
    (0x0014, "Voltage"),
    (0x0015, "Current"),
    (0x0016, "Piezo Tone (Sound)"),
    (0x0017, "RGB Light"),
    (0x0022, "External Tilt Sensor"),
    (0x0023, "Motion Sensor"),
    (0x0025, "Vision Sensor"),
    (0x0026, "External Motor with Tacho"),
    (0x0027, "Internal Motor with Tacho"),
    (0x0028, "Internal Tilt"),
    (0x0029, "Duplo Train Motor"),
    (0x002A, "Duplo Train Speaker"),
    (0x002B, "Duplo Train Color"),
    (0x002C, "Duplo Train Speedometer"),
    (0x002E, "Technic Control+ Large Motor"),
    (0x002F, "Technic Control+ XL Motor"),
    (0x0036, "Powered Up Hub IMU Gesture"),
    (0x0037, "Remote Button"),
    (0x0038, "Remote Signal Level"),
    (0x0039, "Powered Up Hub IMU Accelerometer"),
    (0x003A, "Powered Up Hub IMU Gyro"),
    (0x003B, "Powered Up Hub IMU Position"),
    (0x003C, "Powered Up Hub IMU Temperature") ]

/-- Registry lookup: `DEVICES[device_id]`, `none` when the id is absent
(the membership the `AttachedIOMessage.parse` assert checks). -/
def deviceNameOf (id : Nat) : Option String :=
  (DEVICES.find? (fun e => e.1 == id)).map Prod.snd

/-- Embeds the framing step of `BLEventQ.send_message`: prepend one byte
holding `len(msg) + 1` to the already-built message (which itself starts
with the hub id byte 0 and the message type). -/
def sendMessageFrame (msg : List Nat) : List Nat :=
  (msg.length + 1) :: msg

/-- A complete outbound frame for a message body: the peripherals build
`[0x00, msgType] ++ body` and `send_message` prepends the length byte. -/
def encodeFrame (msgType : Nat) (body : List Nat) : List Nat :=
  sendMessageFrame (0 :: msgType :: body)

/-- Header handling of `MessageDispatch.parse`: skip the two leading
bytes (length and hub id), pop the message type, return it with the
remaining body (`none` when the pop finds nothing). -/
def decodeHeader (msg : List Nat) : Option (Nat × List Nat) :=
  match msg.drop 2 with
  | [] => none
  | t :: body => some (t, body)

/-- Messages the body parsers put on `hub.peripheral_queue`, in put
order: value updates, attach notifications, port metadata refreshes and
the named port-status messages. -/
inductive HubEvent where
  | valueChange (port : Nat) (bytes : List Nat)
  | attach (port : Nat) (deviceName : String)
  | updatePort (port : Nat) (info : PyObj)
  | portDetected (port : Nat)
  | portInfoReceived (port : Nat)
  | portCombinationInfoReceived (port : Nat)
  | portModeInfoReceived (port : Nat)

/-- Per-port metadata dict (one value of `MessageDispatch.port_info`). -/
def PortInfo := List (PyKey × PyObj)

/-- The `MessageDispatch.port_info` dict: port number to metadata dict. -/
def PortInfoDict := List (Nat × PortInfo)

/-- Lookup of a port's metadata dict. -/
def piLookup (st : PortInfoDict) (port : Nat) : Option PortInfo :=
  match st with
  | [] => none
  | (p2, d) :: rest => if p2 = port then some d else piLookup rest port

/-- Assignment `port_info[port] = d`. -/
def piSet (st : PortInfoDict) (port : Nat) (d : PortInfo) : PortInfoDict :=
  match st with
  | [] => [(port, d)]
  | (p2, d2) :: rest =>
    if p2 = port then (p2, d) :: rest else (p2, d2) :: piSet rest port d

/-- Embeds `AttachedIOMessage._add_port_info`: fetch the port's dict
(empty default), set one key, store the dict back. -/
def addPortInfo (st : PortInfoDict) (port : Nat) (k : PyKey) (v : PyObj) :
    PortInfoDict :=
  piSet st port (dictSet ((piLookup st port).getD []) k v)

/-- Embeds `PortValueMessage.parse`: pop the port, report the remaining
bytes as a value change. -/
def parsePortValue (body : List Nat) (st : PortInfoDict) :
    PortInfoDict × Except PyErr (List HubEvent) :=
  match body with
  | [] => (st, .error .indexError)
  | port :: rest => (st, .ok [.valueChange port rest])

/-- Embeds `PortComboValueMessage.parse`: same shape as the single-value
message; the combined payload is decoded later by the bound peripheral. -/
def parsePortComboValue (body : List Nat) (st : PortInfoDict) :
    PortInfoDict × Except PyErr (List HubEvent) :=
  match body with
  | [] => (st, .error .indexError)
  | port :: rest => (st, .ok [.valueChange port rest])

/-- Keys of `HubPropertiesMessage.prop_names`. -/
def propNames : List Nat := [1, 2, 3, 4, 5, 6, 7, 8, 9, 10, 11, 12, 13, 14, 15]

/-- Keys of `HubPropertiesMessage.operation_names`. -/
def operationNames : List Nat := [1, 2, 3, 4, 5, 6]

/-- Embeds `HubPropertiesMessage.parse`: unknown property or operation
raises `UnknownMessageError`; a Button (2) Update (6) report is
re-dispatched as a port-value message on the sentinel port 255. -/
def parseHubProperties (body : List Nat) (st : PortInfoDict) :
    PortInfoDict × Except PyErr (List HubEvent) :=
  match body with
  | [] => (st, .error .indexError)
  | prop :: rest1 =>
    if prop ∈ propNames then
      match rest1 with
      | [] => (st, .error .indexError)
      | op :: rest2 =>
        if op ∈ operationNames then
          if prop = 2 ∧ op = 6 then parsePortValue (0xFF :: rest2) st
          else (st, .ok [])
        else (st, .error .unknownMessage)
    else (st, .error .unknownMessage)

/-- Embeds `PortOutputFeedbackMessage.parse`: pops the port and feedback
bytes, logs, emits nothing. -/
def parsePortOutputFeedback (body : List Nat) (st : PortInfoDict) :
    PortInfoDict × Except PyErr (List HubEvent) :=
  match body with
  | _port :: _feedback :: _rest => (st, .ok [])
  | _ => (st, .error .indexError)

/-- Embeds `AttachedIOMessage.parse`.  Detach returns early; attach and
virtual attach pop the device id, assert registry membership (the
protocol-fatal unknown-device check), record id and name in the port
info, and put the attach, update-port and port-detected messages; a real
attach then consumes eight version bytes, a virtual attach asserts
exactly two remaining bytes and records the underlying port pair. -/
def parseAttachedIO (body : List Nat) (st : PortInfoDict) :
    PortInfoDict × Except PyErr (List HubEvent) :=
  match body with
  | port :: event :: rest =>
    if event = 0 then (st, .ok [])
    else if event = 1 ∨ event = 2 then
      match rest with
      | [] => (st, .error .indexError)
      | did :: rest2 =>
        match deviceNameOf did with
        | none => (st, .error .assertionError)
        | some nm =>
          let st1 := addPortInfo st port (.str "id") (.int did)
          let st2 := addPortInfo st1 port (.str "name") (.str nm)
          match rest2 with
          | [] => (st2, .error .indexError)
          | _msb :: rest3 =>
            let info : PyObj := .dict ((piLookup st2 port).getD [])
            let evs := [HubEvent.attach port nm, .updatePort port info, .portDetected port]
            if event = 1 then
              if 8 ≤ rest3.length then (st2, .ok evs) else (st2, .error .indexError)
            else
              match rest3 with
              | [pa, pb] =>
                (addPortInfo st2 port (.str "virtual") (.tuple [.int pa, .int pb]), .ok evs)
              | _ => (st2, .error .assertionError)
    else (st, .ok [])
  | _ => (st, .error .indexError)

/-- Mode bitmask rendering of `PortInformationMessage._parse_combination_info`:
the list of set mode numbers in a 16-bit combination word. -/
def combosBits (mc : Nat) : PyObj :=
  .list ((List.range 16).filterMap
    (fun i => if mc.testBit i then some (.int i) else none))

/-- The `while mode_combo != 0` loop of
`PortInformationMessage._parse_combination_info`: append the set modes of
the current word, stop on an empty buffer, else pop the next
little-endian word (a single leftover byte is an `IndexError`). -/
def combosLoop (mc : Nat) (msg : List Nat) (acc : List PyObj) :
    Except PyErr (List PyObj) :=
  if mc = 0 then .ok acc
  else
    let acc2 := acc ++ [combosBits mc]
    match msg with
    | [] => .ok acc2
    | [_] => .error .indexError
    | b0 :: b1 :: rest => combosLoop (b0 + b1 * 256) rest acc2
  termination_by msg.length

/-- Per-mode flag writes of
`PortInformationMessage._parse_mode_info_input_output`: for each of the
sixteen mode bits set in `mask`, ensure the mode's dict exists and set
the given key to `True`. -/
def setModeFlags (key : String) (mask : Nat) :
    List Nat → List (PyKey × PyObj) → Except PyErr (List (PyKey × PyObj))
  | [], mes => .ok mes
  | i :: is, mes =>
    if mask.testBit i then
      match dictSetdefault mes (.int i) (.dict []) with
      | (mes1, .dict mies) =>
        setModeFlags key mask is
          (dictSet mes1 (.int i) (.dict (dictSet mies (.str key) (.bool true))))
      | _ => .error .typeError
    else setModeFlags key mask is mes

/-- Embeds `PortInformationMessage.parse`: mode 1 records the four port
capability flags, pops the mode count and the two 16-bit input/output
masks and flags each listed mode; mode 2 parses the combination words;
any other mode raises `UnknownMessageError` (after the two `setdefault`
mutations, which persist). -/
def parsePortInformation (body : List Nat) (st : PortInfoDict) :
    PortInfoDict × Except PyErr (List HubEvent) :=
  match body with
  | port :: mode :: rest =>
    let pd0 := (piLookup st port).getD []
    let stInit := piSet st port pd0
    let (pd1, modesObj) := dictSetdefault pd0 (.str "modes") (.dict [])
    let stB := piSet stInit port pd1
    match modesObj with
    | .dict mes =>
      if mode = 1 then
        match rest with
        | cap :: nrest =>
          let pd2 := dictSet pd1 (.str "output") (.int ((cap &&& 1 : Nat) : Int))
          let pd3 := dictSet pd2 (.str "input") (.int ((cap &&& 2 : Nat) : Int))
          let pd4 := dictSet pd3 (.str "combinable") (.int ((cap &&& 4 : Nat) : Int))
          let pd5 := dictSet pd4 (.str "synchronizable") (.int ((cap &&& 8 : Nat) : Int))
          match nrest with
          | _nModes :: b0 :: b1 :: b2 :: b3 :: _tail =>
            let inputModes := b0 + b1 * 256
            let outputModes := b2 + b3 * 256
            match setModeFlags "input" inputModes (List.range 16) mes with
            | .error e => (piSet stB port pd5, .error e)
            | .ok mes1 =>
              match setModeFlags "output" outputModes (List.range 16) mes1 with
              | .error e => (piSet stB port pd5, .error e)
              | .ok mes2 =>
                let pd6 := dictSet pd5 (.str "modes") (.dict mes2)
                (piSet stB port pd6,
                 .ok [.updatePort port (.dict pd6), .portInfoReceived port])
          | _ => (piSet stB port pd5, .error .indexError)
        | [] => (stB, .error .indexError)
      else if mode = 2 then
        let pd2 := dictSet pd1 (.str "mode_combinations") (.list [])
        match rest with
        | b0 :: b1 :: crest =>
          match combosLoop (b0 + b1 * 256) crest [] with
          | .error e => (piSet stB port pd2, .error e)
          | .ok combos =>
            let pd3 := dictSet pd2 (.str "mode_combinations") (.list combos)
            (piSet stB port pd3,
             .ok [.updatePort port (.dict pd3), .portCombinationInfoReceived port])
        | _ => (piSet stB port pd2, .error .indexError)
      else (stB, .error .unknownMessage)
    | _ => (stB, .error .typeError)
  | _ => (st, .error .indexError)

/-- NUL-stripped ASCII text of `PortModeInformationMessage._parse_name`
and `_parse_symbol`. -/
def pyStrOfBytes (msg : List Nat) : String :=
  String.mk ((msg.filter (fun b => b != 0)).map Char.ofNat)

/-- Shared range parsing of `_parse_raw_range`, `_parse_pct_range` and
`_parse_si_range`: two IEEE-754 words, one from bytes 0..3 and one from
bytes 4.., each of which `struct.unpack` requires to be exactly four
bytes; the float values are kept as their little-endian bit patterns. -/
def parseRangePair (key : String) (msg : List Nat) (mi : List (PyKey × PyObj)) :
    Except PyErr (List (PyKey × PyObj)) :=
  let lo := msg.take 4
  let hi := msg.drop 4
  if lo.length = 4 ∧ hi.length = 4 then
    .ok (dictSet mi (.str key) (.tuple [.int (leValue lo), .int (leValue hi)]))
  else .error .structError

/-- The bit-name table of `PortModeInformationMessage._parse_mapping`
(one entry of the Python list ends with a literal closing brace). -/
def mappingBitName (i : Nat) : String :=
  match i with
  | 2 => "Discrete"
  | 3 => "Relative"
  | 4 => "Absolute"
  | 6 => "Supports Functional Mapping 2.0\x7d"
  | 7 => "Supports NULL"
  | _ => "NA"

/-- Names of the bits set in one mapping mask byte. -/
def mappingBits (mask : Nat) : List PyObj :=
  (List.range 8).filterMap
    (fun i => if mask.testBit i then some (.str (mappingBitName i)) else none)

/-- Embeds `PortModeInformationMessage._parse_mapping`: the first two
bytes are the input and output mapping masks. -/
def parseMapping (msg : List Nat) (mi : List (PyKey × PyObj)) :
    Except PyErr (List (PyKey × PyObj)) :=
  match msg with
  | m0 :: m1 :: _ =>
    .ok (dictSet (dictSet mi (.str "input_mapping") (.list (mappingBits m0)))
          (.str "output_mapping") (.list (mappingBits m1)))
  | _ => .error .indexError

/-- Dataset type table of `PortModeInformationMessage._parse_format`
(indexing past it is an `IndexError`, checked by the caller). -/
def datasetTypeName (i : Nat) : String :=
  match i with
  | 0 => "8b"
  | 1 => "16b"
  | 2 => "32b"
  | _ => "float"

/-- Embeds `PortModeInformationMessage._parse_format`: four bytes are the
dataset count, the dataset type index (valid below 4), the total figure
count and the decimal count. -/
def parseValueFormat (msg : List Nat) (mi : List (PyKey × PyObj)) :
    Except PyErr (List (PyKey × PyObj)) :=
  match msg with
  | d0 :: d1 :: d2 :: d3 :: _ =>
    if d1 < 4 then
      .ok (dictSet (dictSet (dictSet (dictSet mi
            (.str "datasets") (.int d0))
            (.str "dataset_type") (.str (datasetTypeName d1)))
            (.str "dataset_total_figures") (.int d2))
            (.str "dataset_decimals") (.int d3))
    else .error .indexError
  | _ => .error .indexError

/-- Sub-type dispatch table of `PortModeInformationMessage.parse`: an
unrecognized sub-type raises `UnknownMessageError`. -/
def parseModeInfoType (t : Nat) (msg : List Nat) (mi : List (PyKey × PyObj)) :
    Except PyErr (List (PyKey × PyObj)) :=
  if t = 0 then .ok (dictSet mi (.str "name") (.str (pyStrOfBytes msg)))
  else if t = 1 then parseRangePair "raw_range" msg mi
  else if t = 2 then parseRangePair "pct_range" msg mi
  else if t = 3 then parseRangePair "si_range" msg mi
  else if t = 4 then .ok (dictSet mi (.str "symbol") (.str (pyStrOfBytes msg)))
  else if t = 5 then parseMapping msg mi
  else if t = 0x80 then parseValueFormat msg mi
  else .error .unknownMessage

/-- Embeds `PortModeInformationMessage.parse`: pop port, mode and
sub-type, ensure the nested mode dict exists, run the sub-type parser on
it, and put the update-port and mode-info-received messages. -/
def parsePortModeInformation (body : List Nat) (st : PortInfoDict) :
    PortInfoDict × Except PyErr (List HubEvent) :=
  match body with
  | port :: mode :: modeType :: rest =>
    let pd0 := (piLookup st port).getD []
    let (pd1, modesObj) := dictSetdefault pd0 (.str "modes") (.dict [])
    match modesObj with
    | .dict mes =>
      let (mes1, miObj) := dictSetdefault mes (.int mode) (.dict [])
      match miObj with
      | .dict mi =>
        let pdPost := dictSet pd1 (.str "modes") (.dict mes1)
        let stPost := piSet st port pdPost
        match parseModeInfoType modeType rest mi with
        | .error e => (stPost, .error e)
        | .ok mi2 =>
          let pdF := dictSet pd1 (.str "modes") (.dict (dictSet mes1 (.int mode) (.dict mi2)))
          (piSet st port pdF,
           .ok [.updatePort port (.dict pdF), .portModeInfoReceived port])
      | _ => (piSet st port pd1, .error .typeError)
    | _ => (piSet st port pd1, .error .typeError)
  | _ => (st, .error .indexError)

/-- The `Message.parsers` registration: body parser keyed by message-type
tag; a tag with no parser is the `UnknownMessageError` raised by
`MessageDispatch.parse`. -/
def parseBody (msgType : Nat) (body : List Nat) (st : PortInfoDict) :
    PortInfoDict × Except PyErr (List HubEvent) :=
  if msgType = 0x45 then parsePortValue body st
  else if msgType = 0x46 then parsePortComboValue body st
  else if msgType = 0x01 then parseHubProperties body st
  else if msgType = 0x43 then parsePortInformation body st
  else if msgType = 0x82 then parsePortOutputFeedback body st
  else if msgType = 0x44 then parsePortModeInformation body st
  else if msgType = 0x04 then parseAttachedIO body st
  else (st, .error .unknownMessage)

/-- Embeds `MessageDispatch.parse`: strip length and hub-id bytes, pop
the tag, dispatch to the registered body parser.  `UnknownMessageError`
(unregistered tag, unknown hub property or operation, unknown port-info
mode or mode-info sub-type) is caught here: the raw message is rendered
as hex for the log, no message is put on the peripheral queue, and
parsing returns normally.  Any other exception escapes.  The log string
of a normally parsed message is out of the modelled core and is returned
as a fixed placeholder. -/
def dispatchParse (msg : List Nat) (st : PortInfoDict) :
    PortInfoDict × Except PyErr (String × List HubEvent) :=
  match msg.drop 2 with
  | [] => (st, .error .indexError)
  | msgType :: body =>
    match parseBody msgType body st with
    | (st2, .ok evs) => (st2, .ok ("parsed", evs))
    | (st2, .error .unknownMessage) => (st2, .ok (hexDump msg, []))
    | (st2, .error e) => (st2, .error e)

/-!
## Statement helpers

Derived notions used only to state and prove the theorems: slot/byte
accounting for the combined-mode decoder, the loop-tick count of the
motor ramp, and the spec-side ramp formulas a corrected claim is
compared against.
-/

/-- Read of `value[k]` as the theorems observe it: the dict entry when
`value` is a dict, nothing otherwise. -/
def pyGetKey (value : PyObj) (k : PyKey) : Option PyObj :=
  match value with
  | .dict es => dictGet es k
  | _ => none

/-- Bytes the combined-mode decoder consumes for one capability: one
`w`-byte read per dataset slot whose presence bit is set, none
otherwise. -/
def slotsWidth (w modes : Nat) : List Nat → Nat → Nat
  | [], _ => 0
  | _d :: ds, dsi => (if modes.testBit dsi then w else 0) + slotsWidth w modes ds (dsi + 1)

/-- Total bytes the combined-mode decoder consumes across the requested
capabilities starting at slot `dsi`. -/
def comboWidth (dsf : Nat → DatasetShape) (modes : Nat) : List Nat → Nat → Nat
  | [], _ => 0
  | cap :: caps, dsi =>
    slotsWidth (dsf cap).w modes (List.range (dsf cap).n) dsi
      + comboWidth dsf modes caps (dsi + (dsf cap).n)

/-- All slots that belong to occurrences of capability `cap` inside the
given capability list (starting at slot `dsi`) have a clear presence
bit. -/
def capSlotsUnset (dsf : Nat → DatasetShape) (modes : Nat) (cap : Nat) :
    List Nat → Nat → Prop
  | [], _ => True
  | c :: cs, dsi =>
    (c = cap → ∀ d, d < (dsf c).n → modes.testBit (dsi + d) = false)
      ∧ capSlotsUnset dsf modes cap cs (dsi + (dsf c).n)

/-- The dataset table of the combo-decode example: capability 1 has two
one-byte datasets, capability 2 one four-byte dataset. -/
def comboExampleShapes : Nat → DatasetShape :=
  fun c => if c = 1 then ⟨2, 1⟩ else if c = 2 then ⟨1, 4⟩ else ⟨0, 0⟩

/-- Number of iterations the ramp while-loop performs: the least natural
number at least `ramp_time_ms / 100`. -/
def rampTickCount (ms : Nat) : Nat := (ms + 99) / 100

/-- Modelled from the spec (for comparison only): the step count the
claim asserts, `ceil(durationMs / 100)`. -/
def specRampSteps (ms : Nat) : Int := Int.ceil ((ms : Rat) / 100)

/-- Modelled from the spec (for comparison only): the tick value the
claim asserts, `round(startSpeed + i * stepSize)` with the step size
computed from the ceiling step count. -/
def specRampTick (startSpeed targetSpeed : Int) (ms : Nat) (i : Nat) : Int :=
  round ((startSpeed : Rat)
    + (i : Rat) * (((targetSpeed : Rat) - (startSpeed : Rat)) / (specRampSteps ms : Rat)))

/-!
## Theorems

One theorem per claim, with shared helper lemmas.
-/

/-- C6: speed-to-byte conversion returns 127 unchanged at 127, clamps
inputs above 100 to 100, reinterprets negative inputs as unsigned 8-bit
two's complement (adding 256 on the byte-sized domain; the examples
include 150 → 100, −50 → 206, 127 → 127, −1 → 255, −100 → 156), and
passes everything else through unchanged. -/
theorem c6_speed_conversion :
    (∀ s : Int, convertSpeedToVal s =
      if s = 127 then 127 else if s > 100 then 100 else if s < 0 then s % 256 else s)
    ∧ (∀ s : Int, -256 ≤ s → s < 0 → convertSpeedToVal s = s + 256)
    ∧ convertSpeedToVal 150 = 100 ∧ convertSpeedToVal (-50) = 206
    ∧ convertSpeedToVal 127 = 127 ∧ convertSpeedToVal (-1) = 255
    ∧ convertSpeedToVal (-100) = 156 := by
  refine ⟨fun s => ?_, fun s h1 h2 => ?_, by decide, by decide, by decide, by decide, by decide⟩
  · simp only [convertSpeedToVal]
    split_ifs <;> omega
  · simp only [convertSpeedToVal]
    split_ifs <;> omega

/-- Witness for `c6_speed_conversion` at −50. -/
theorem c6_speed_conversion_witness :
    (-256 : Int) ≤ -50 ∧ (-50 : Int) < 0 ∧ convertSpeedToVal (-50) = -50 + 256 :=
  ⟨by decide, by decide, c6_speed_conversion.2.1 (-50) (by decide) (by decide)⟩

/-- C2: round-trip framing.  For every body of length at most 125,
prepending the `[length, hubId = 0, msgType]` header with
`length = len([0, msgType] ++ body) + 1` and then decoding (strip two
bytes, pop the type) returns exactly the original type and body, and the
length byte is `len(body) + 3`, which fits in one byte. -/
theorem c2_roundtrip_framing (msgType : Nat) (body : List Nat)
    (h : body.length ≤ 125) :
    decodeHeader (encodeFrame msgType body) = some (msgType, body)
    ∧ (encodeFrame msgType body).head? = some (body.length + 3)
    ∧ body.length + 3 ≤ 255 := by
  refine ⟨rfl, ?_, by omega⟩
  simp [encodeFrame, sendMessageFrame]

/-- Witness for `c2_roundtrip_framing` on a three-byte body. -/
theorem c2_roundtrip_framing_witness :
    ([1, 2, 3] : List Nat).length ≤ 125
    ∧ decodeHeader (encodeFrame 0x41 [1, 2, 3]) = some (0x41, [1, 2, 3]) :=
  ⟨by decide, (c2_roundtrip_framing 0x41 [1, 2, 3] (by decide)).1⟩

/-- C9: `set_speed(v)` records `v` itself (unclamped, unconverted) as the
motor's current speed while the byte written in the WriteDirectModeData
command is the converted value; in particular after `set_speed(150)` the
recorded speed is 150 (the command byte is 100), and a subsequent
`ramp_speed` computes its step size from that unclamped recorded
speed. -/
theorem c9_set_speed_records_raw_speed (port : Nat) (m : MotorState) (v : Int) :
    (setSpeed port m v).1.speed = v
    ∧ (setSpeed port m v).2 = [0x00, 0x81, (port : Int), 0x01, 0x51, 0, convertSpeedToVal v]
    ∧ (setSpeed port m 150).1.speed = 150
    ∧ (setSpeed port m 150).2 = [0x00, 0x81, (port : Int), 0x01, 0x51, 0, 100]
    ∧ (∀ target : Int, ∀ ms : Nat,
        rampSpeedStep target ((setSpeed port m 150).1.speed) ms
          = ((target : Rat) - 150) / ((ms : Rat) / 100)) := by
  refine ⟨rfl, rfl, rfl, rfl, fun target ms => ?_⟩
  unfold rampSpeedStep rampNumberOfSteps setSpeed
  norm_num

/-- C10: `update_value` with zero requested capabilities replaces the
stored value by the raw message bytes verbatim (whatever a prior
capability-keyed dict held); with exactly one capability it runs the
single-mode decode loop; with more than one it runs the combined-mode
decoder. -/
theorem c10_update_value_dispatch :
    (∀ (dsf : Nat → DatasetShape) (value : PyObj) (msg : List Nat),
      updateValue ⟨[], dsf⟩ value msg = .ok (.bytes msg))
    ∧ (∀ (cap : Nat) (dsf : Nat → DatasetShape) (value : PyObj) (msg : List Nat),
      updateValue ⟨[cap], dsf⟩ value msg
        = updateSingleGo cap (dsf cap) msg (List.range (dsf cap).n) value)
    ∧ (∀ (caps : List Nat) (dsf : Nat → DatasetShape) (value : PyObj) (msg : List Nat),
      2 ≤ caps.length →
      updateValue ⟨caps, dsf⟩ value msg = parseCombinedSensorValues ⟨caps, dsf⟩ msg value) := by
  refine ⟨fun dsf value msg => rfl, fun cap dsf value msg => rfl,
          fun caps dsf value msg h => ?_⟩
  have h0 : caps.length ≠ 0 := by omega
  have h1 : caps.length ≠ 1 := by omega
  simp [updateValue, h0, h1]

/-- Witness for `c10_update_value_dispatch`: a two-capability config
takes the combined-mode path. -/
theorem c10_update_value_dispatch_witness :
    2 ≤ ([1, 2] : List Nat).length
    ∧ updateValue ⟨[1, 2], fun _ => ⟨1, 1⟩⟩ .pynone [0, 0]
        = parseCombinedSensorValues ⟨[1, 2], fun _ => ⟨1, 1⟩⟩ [0, 0] .pynone :=
  ⟨by decide, c10_update_value_dispatch.2.2 [1, 2] (fun _ => ⟨1, 1⟩) .pynone [0, 0] (by decide)⟩

/-- C7: a message whose type tag has no registered body parser is
non-fatal: `MessageDispatch.parse` returns normally with the raw bytes
rendered as colon-joined hex for the log, puts nothing on the peripheral
queue (no event of any kind), and leaves the dispatcher state
untouched. -/
theorem c7_unknown_tag_non_fatal (b0 b1 tag : Nat) (body : List Nat)
    (st : PortInfoDict)
    (h : tag ∉ [0x45, 0x46, 0x01, 0x43, 0x82, 0x44, 0x04]) :
    dispatchParse (b0 :: b1 :: tag :: body) st
      = (st, .ok (hexDump (b0 :: b1 :: tag :: body), [])) := by
  simp only [List.mem_cons, List.not_mem_nil, or_false, not_or] at h
  obtain ⟨h1, h2, h3, h4, h5, h6, h7⟩ := h
  simp [dispatchParse, parseBody, List.drop, h1, h2, h3, h4, h5, h6, h7]

/-- Witness for `c7_unknown_tag_non_fatal` on tag `0x50`. -/
theorem c7_unknown_tag_non_fatal_witness :
    (0x50 : Nat) ∉ ([0x45, 0x46, 0x01, 0x43, 0x82, 0x44, 0x04] : List Nat)
    ∧ dispatchParse [5, 0, 0x50, 1] [] = ([], .ok (hexDump [5, 0, 0x50, 1], [])) :=
  ⟨by decide, c7_unknown_tag_non_fatal 5 0 0x50 [1] [] (by decide)⟩

/-- C8: an attach (event 1) or virtual-attach (event 2) whose device id
is absent from the `DEVICES` registry fails the parser's assert: parsing
raises (the error is not the caught `UnknownMessageError`, so it escapes
the dispatcher), no message of any kind is put on the peripheral queue
(in particular no attach event, so no peripheral binding can happen),
and the port-info state is untouched. -/
theorem c8_unknown_device_id_fatal (b0 b1 port event did : Nat) (rest : List Nat)
    (st : PortInfoDict) (hev : event = 1 ∨ event = 2)
    (hdev : deviceNameOf did = none) :
    dispatchParse (b0 :: b1 :: 0x04 :: port :: event :: did :: rest) st
      = (st, .error .assertionError) := by
  rcases hev with h | h <;> subst h <;>
    simp [dispatchParse, parseBody, parseAttachedIO, List.drop, hdev]

/-- Witness for `c8_unknown_device_id_fatal`: device id `0x99` is not in
the registry. -/
theorem c8_unknown_device_id_fatal_witness :
    ((1 : Nat) = 1 ∨ (1 : Nat) = 2) ∧ deviceNameOf 0x99 = none
    ∧ dispatchParse [15, 0, 0x04, 3, 1, 0x99, 0, 0, 0, 0, 0, 0, 0, 0, 0] []
        = ([], .error .assertionError) :=
  ⟨Or.inl rfl, by decide,
   c8_unknown_device_id_fatal 15 0 3 1 0x99 [0, 0, 0, 0, 0, 0, 0, 0, 0] []
     (Or.inl rfl) (by decide)⟩

/-- A peripheral found by the reserved-port loop reserves exactly that
port. -/
theorem findFirstReserved_port (ps : List HubPeripheral) (port : Nat)
    (p : HubPeripheral) (h : findFirstReserved ps port = some p) :
    p.port = some port := by
  induction ps with
  | nil => simp [findFirstReserved] at h
  | cons q qs ih =>
    rw [findFirstReserved] at h
    by_cases hq : q.port = some port
    · simp [hq] at h
      rw [← h]
      exact hq
    · simp [hq] at h
      exact ih h

/-- When no declared peripheral reserves the port, the first loop finds
nothing. -/
theorem findFirstReserved_none (ps : List HubPeripheral) (port : Nat)
    (h : ∀ q ∈ ps, q.port ≠ some port) :
    findFirstReserved ps port = none := by
  induction ps with
  | nil => rfl
  | cons q qs ih =>
    rw [findFirstReserved]
    rw [if_neg (h q (by simp))]
    exact ih (fun r hr => h r (by simp [hr]))

/-- Setting a port in the `port_to_peripheral` map makes it look up to
the bound name. -/
theorem portMapGet_portMapSet (m : List (Nat × String)) (port : Nat) (nm : String) :
    portMapGet (portMapSet m port nm) port = some nm := by
  induction m with
  | nil => simp [portMapSet, portMapGet]
  | cons e rest ih =>
    obtain ⟨p2, n2⟩ := e
    by_cases hp : p2 = port
    · simp [portMapSet, portMapGet, hp]
    · simp [portMapSet, portMapGet, hp, ih]

/-- C4: fixed-port attach binding.  When an attach event arrives on a
port that a declared peripheral reserves (the first such, in declaration
order), a matching device name binds exactly that peripheral on exactly
that reserved port (the port map gains the binding and the peripheral's
`boundPort` is the reserved port), and a mismatching device name raises
`DifferentPeripheralOnPortError` with the hub state unchanged (no
binding occurs). -/
theorem c4_fixed_port_binding (st : HubState) (port : Nat) (deviceName : String)
    (p : HubPeripheral) (hfind : findFirstReserved st.peripherals port = some p) :
    (p.sensorName = deviceName →
      connectPeripheralToPort st deviceName port =
        .ok ({ st with portToPeripheral := portMapSet st.portToPeripheral port p.name },
             some p.name)
      ∧ p.port = some port
      ∧ portMapGet (portMapSet st.portToPeripheral port p.name) port = some p.name)
    ∧ (p.sensorName ≠ deviceName →
      connectPeripheralToPort st deviceName port = .error .differentPeripheralOnPort) := by
  constructor
  · intro hname
    refine ⟨?_, findFirstReserved_port _ _ _ hfind, portMapGet_portMapSet _ _ _⟩
    simp [connectPeripheralToPort, hfind, hname]
  · intro hname
    simp [connectPeripheralToPort, hfind, hname]

/-- Witness for `c4_fixed_port_binding`: a peripheral declared on port
12 with the matching device name binds there; the companion mismatch
branch is exercised through the same theorem at a wrong name. -/
theorem c4_fixed_port_binding_witness :
    findFirstReserved [⟨"m", "Internal Motor with Tacho", some 12⟩] 12
        = some ⟨"m", "Internal Motor with Tacho", some 12⟩
    ∧ connectPeripheralToPort ⟨[⟨"m", "Internal Motor with Tacho", some 12⟩], []⟩
        "Internal Motor with Tacho" 12
        = .ok (⟨[⟨"m", "Internal Motor with Tacho", some 12⟩], [(12, "m")]⟩, some "m")
    ∧ connectPeripheralToPort ⟨[⟨"m", "Internal Motor with Tacho", some 12⟩], []⟩
        "Vision Sensor" 12 = .error .differentPeripheralOnPort :=
  ⟨rfl,
   ((c4_fixed_port_binding ⟨[⟨"m", "Internal Motor with Tacho", some 12⟩], []⟩ 12
      "Internal Motor with Tacho" ⟨"m", "Internal Motor with Tacho", some 12⟩ rfl).1
      rfl).1,
   (c4_fixed_port_binding ⟨[⟨"m", "Internal Motor with Tacho", some 12⟩], []⟩ 12
      "Vision Sensor" ⟨"m", "Internal Motor with Tacho", some 12⟩ rfl).2
      (by decide)⟩

/-- The unbound-peripheral loop binds exactly the first declared
peripheral (in declaration order) whose device name matches and whose
port is unset. -/
theorem bindFirstUnbound_first_match (dn : String) (port : Nat) :
    ∀ (ps : List HubPeripheral) (j : Nat) (hj : j < ps.length),
      (ps.get ⟨j, hj⟩).sensorName = dn → (ps.get ⟨j, hj⟩).port = none →
      (∀ k (hk : k < j),
        ¬((ps.get ⟨k, Nat.lt_trans hk hj⟩).sensorName = dn
          ∧ (ps.get ⟨k, Nat.lt_trans hk hj⟩).port = none)) →
      bindFirstUnbound dn port ps
        = some (ps.set j { ps.get ⟨j, hj⟩ with port := some port },
                (ps.get ⟨j, hj⟩).name) := by
  intro ps
  induction ps with
  | nil => intro j hj; simp at hj
  | cons p rest ih =>
    intro j hj hs hp hfirst
    cases j with
    | zero =>
      simp at hs hp
      rw [bindFirstUnbound, if_pos ⟨hs, hp⟩]
      simp
    | succ j2 =>
      have hfail : ¬(p.sensorName = dn ∧ p.port = none) := by
        intro hcon
        exact hfirst 0 (Nat.succ_pos j2) (by simpa using hcon)
      have hj2 : j2 < rest.length := by
        simp only [List.length_cons] at hj
        omega
      rw [bindFirstUnbound, if_neg hfail]
      rw [ih j2 hj2 (by simpa using hs) (by simpa using hp)
            (fun k hk => by
              have hk2 := hfirst (k + 1) (by omega)
              simpa using hk2)]
      simp

/-- C5: first-match attach binding.  When no declared peripheral
reserves the arriving port, the first declared-but-unbound peripheral
(in declaration order) with a matching device name gets the port; in
the two-declaration scenario, attach events on ports 5 then 9 bind the
first declared instance to port 5 and the second to port 9. -/
theorem c5_first_match_binding :
    (∀ (st : HubState) (deviceName : String) (port : Nat) (j : Nat)
       (hj : j < st.peripherals.length),
      (∀ q ∈ st.peripherals, q.port ≠ some port) →
      (st.peripherals.get ⟨j, hj⟩).sensorName = deviceName →
      (st.peripherals.get ⟨j, hj⟩).port = none →
      (∀ k (hk : k < j),
        ¬((st.peripherals.get ⟨k, Nat.lt_trans hk hj⟩).sensorName = deviceName
          ∧ (st.peripherals.get ⟨k, Nat.lt_trans hk hj⟩).port = none)) →
      connectPeripheralToPort st deviceName port
        = .ok ({ peripherals :=
                   st.peripherals.set j
                     { st.peripherals.get ⟨j, hj⟩ with port := some port },
                 portToPeripheral :=
                   portMapSet st.portToPeripheral port
                     (st.peripherals.get ⟨j, hj⟩).name },
               some (st.peripherals.get ⟨j, hj⟩).name))
    ∧ connectPeripheralToPort
        ⟨[⟨"motor_a", "Internal Motor with Tacho", none⟩,
          ⟨"motor_b", "Internal Motor with Tacho", none⟩], []⟩
        "Internal Motor with Tacho" 5
        = .ok (⟨[⟨"motor_a", "Internal Motor with Tacho", some 5⟩,
                 ⟨"motor_b", "Internal Motor with Tacho", none⟩],
                [(5, "motor_a")]⟩, some "motor_a")
    ∧ connectPeripheralToPort
        ⟨[⟨"motor_a", "Internal Motor with Tacho", some 5⟩,
          ⟨"motor_b", "Internal Motor with Tacho", none⟩], [(5, "motor_a")]⟩
        "Internal Motor with Tacho" 9
        = .ok (⟨[⟨"motor_a", "Internal Motor with Tacho", some 5⟩,
                 ⟨"motor_b", "Internal Motor with Tacho", some 9⟩],
                [(5, "motor_a"), (9, "motor_b")]⟩, some "motor_b") := by
  refine ⟨fun st deviceName port j hj h1 hs hp hfirst => ?_, rfl, rfl⟩
  rw [connectPeripheralToPort, findFirstReserved_none _ _ h1,
      bindFirstUnbound_first_match deviceName port st.peripherals j hj hs hp hfirst]

/-- Witness for `c5_first_match_binding`: with two matching unbound
declarations, an attach on port 7 binds the first declared one. -/
theorem c5_first_match_binding_witness :
    (∀ q ∈ ([⟨"a", "Motor", none⟩, ⟨"b", "Motor", none⟩] : List HubPeripheral),
      q.port ≠ some 7)
    ∧ connectPeripheralToPort ⟨[⟨"a", "Motor", none⟩, ⟨"b", "Motor", none⟩], []⟩ "Motor" 7
        = .ok (⟨[⟨"a", "Motor", some 7⟩, ⟨"b", "Motor", none⟩], [(7, "a")]⟩, some "a") :=
  ⟨by decide,
   c5_first_match_binding.1 ⟨[⟨"a", "Motor", none⟩, ⟨"b", "Motor", none⟩], []⟩
     "Motor" 7 0 (by decide) (by decide) rfl rfl (fun k hk => by omega)⟩

/-- Setting one dict key leaves every other key unchanged. -/
theorem dictGet_dictSet_ne (es : List (PyKey × PyObj)) (k k2 : PyKey) (v : PyObj)
    (h : k2 ≠ k) : dictGet (dictSet es k v) k2 = dictGet es k2 := by
  induction es with
  | nil =>
    simp only [dictSet, dictGet]
    rw [if_neg (fun hh => h hh.symm)]
  | cons e rest ih =>
    obtain ⟨k3, v3⟩ := e
    by_cases h3 : k3 = k
    · subst h3
      simp only [dictSet, if_pos rfl, dictGet]
      rw [if_neg (fun hh => h hh.symm), if_neg (fun hh => h hh.symm)]
    · simp only [dictSet, if_neg h3, dictGet]
      by_cases h4 : k3 = k2
      · rw [if_pos h4, if_pos h4]
      · rw [if_neg h4, if_neg h4]
        exact ih

/-- `dictSetItem` at one key preserves reads of every other key. -/
theorem dictSetItem_preserve (value : PyObj) (k : PyKey) (v value2 : PyObj)
    (h : dictSetItem value k v = .ok value2) (k2 : PyKey) (hk : k2 ≠ k) :
    pyGetKey value2 k2 = pyGetKey value k2 := by
  cases value <;> simp [dictSetItem] at h
  rw [← h]
  simp only [pyGetKey]
  exact dictGet_dictSet_ne _ _ _ _ hk

/-- `dictListSetItem` at one key preserves reads of every other key. -/
theorem dictListSetItem_preserve (value : PyObj) (k : PyKey) (i : Nat) (v value2 : PyObj)
    (h : dictListSetItem value k i v = .ok value2) (k2 : PyKey) (hk : k2 ≠ k) :
    pyGetKey value2 k2 = pyGetKey value k2 := by
  cases value <;> simp [dictListSetItem] at h
  rename_i es
  cases hg : dictGet es k with
  | none => rw [hg] at h; simp at h
  | some w =>
    rw [hg] at h
    cases w <;> simp at h
    rename_i xs
    by_cases hi : i < xs.length
    · rw [if_pos hi] at h
      simp at h
      rw [← h]
      simp only [pyGetKey]
      exact dictGet_dictSet_ne _ _ _ _ hk
    · rw [if_neg hi] at h
      simp at h

/-- A successful combined-mode dataset loop only writes the key of its
own capability: every other key reads as before. -/
theorem comboDatasets_preserve (cap : Nat) (shape : DatasetShape) (modes : Nat) :
    ∀ (ds msg : List Nat) (value : PyObj) (dsi : Nat)
      (out : List Nat × PyObj × Nat),
      comboDatasets cap shape modes ds msg value dsi = .ok out →
      ∀ k2, k2 ≠ PyKey.int cap → pyGetKey out.2.1 k2 = pyGetKey value k2 := by
  intro ds
  induction ds with
  | nil =>
    intro msg value dsi out h k2 hk
    simp [comboDatasets] at h
    rw [← h]
  | cons d ds ih =>
    intro msg value dsi out h k2 hk
    rw [comboDatasets] at h
    by_cases hb : modes.testBit dsi
    · rw [if_pos hb] at h
      cases hcv : convertBytes (msg.take shape.w) shape.w with
      | error e => rw [hcv] at h; simp at h
      | ok val =>
        rw [hcv] at h
        dsimp only at h
        cases hst : (if shape.n = 1 then dictSetItem value (.int cap) val
                     else dictListSetItem value (.int cap) d val) with
        | error e => rw [hst] at h; simp at h
        | ok value2 =>
          rw [hst] at h
          dsimp only at h
          have h1 := ih _ _ _ _ h k2 hk
          have h2 : pyGetKey value2 k2 = pyGetKey value k2 := by
            by_cases hn : shape.n = 1
            · rw [if_pos hn] at hst
              exact dictSetItem_preserve _ _ _ _ hst _ hk
            · rw [if_neg hn] at hst
              exact dictListSetItem_preserve _ _ _ _ _ hst _ hk
          rw [h1, h2]
    · rw [if_neg hb] at h
      exact ih _ _ _ _ h k2 hk

/-- A combined-mode dataset loop whose slots are all absent consumes no
bytes, changes no value, and advances the slot index by the dataset
count. -/
theorem comboDatasets_unset (cap : Nat) (shape : DatasetShape) (modes : Nat) :
    ∀ (ds msg : List Nat) (value : PyObj) (dsi : Nat),
      (∀ idx, idx < ds.length → modes.testBit (dsi + idx) = false) →
      comboDatasets cap shape modes ds msg value dsi
        = .ok (msg, value, dsi + ds.length) := by
  intro ds
  induction ds with
  | nil => intro msg value dsi _; simp [comboDatasets]
  | cons d ds ih =>
    intro msg value dsi h
    have hb : modes.testBit dsi = false := by
      have := h 0 (by simp)
      simpa using this
    rw [comboDatasets, if_neg (by simp [hb])]
    have hrec := ih msg value (dsi + 1) (fun idx hidx => by
      have := h (idx + 1) (by simp; omega)
      rw [← this]
      congr 1
      omega)
    rw [hrec]
    simp only [List.length_cons]
    have heq : dsi + 1 + ds.length = dsi + (ds.length + 1) := by omega
    rw [heq]

/-- A successful combined-mode dataset loop consumes exactly the summed
byte widths of its present slots and advances the slot index once per
dataset. -/
theorem comboDatasets_count (cap : Nat) (shape : DatasetShape) (modes : Nat) :
    ∀ (ds msg : List Nat) (value : PyObj) (dsi : Nat)
      (out : List Nat × PyObj × Nat),
      comboDatasets cap shape modes ds msg value dsi = .ok out →
      out.2.2 = dsi + ds.length
      ∧ out.1 = msg.drop (slotsWidth shape.w modes ds dsi) := by
  intro ds
  induction ds with
  | nil =>
    intro msg value dsi out h
    simp [comboDatasets] at h
    rw [← h]
    simp [slotsWidth]
  | cons d ds ih =>
    intro msg value dsi out h
    rw [comboDatasets] at h
    by_cases hb : modes.testBit dsi
    · rw [if_pos hb] at h
      cases hcv : convertBytes (msg.take shape.w) shape.w with
      | error e => rw [hcv] at h; simp at h
      | ok val =>
        rw [hcv] at h
        dsimp only at h
        cases hst : (if shape.n = 1 then dictSetItem value (.int cap) val
                     else dictListSetItem value (.int cap) d val) with
        | error e => rw [hst] at h; simp at h
        | ok value2 =>
          rw [hst] at h
          dsimp only at h
          obtain ⟨h1, h2⟩ := ih _ _ _ _ h
          constructor
          · rw [h1]; simp only [List.length_cons]; omega
          · rw [h2, slotsWidth, if_pos hb, List.drop_drop]
    · rw [if_neg hb] at h
      obtain ⟨h1, h2⟩ := ih _ _ _ _ h
      constructor
      · rw [h1]; simp only [List.length_cons]; omega
      · rw [h2, slotsWidth, if_neg hb]
        simp

/-- A successful combined-mode decode consumes exactly the summed byte
widths of the present slots, in capability declaration order: the
remaining buffer is the input dropped by `comboWidth`. -/
theorem comboCaps_consumption (dsf : Nat → DatasetShape) (modes : Nat) :
    ∀ (caps : List Nat) (msg : List Nat) (value : PyObj) (dsi : Nat)
      (out : PyObj × List Nat),
      comboCaps dsf modes caps msg value dsi = .ok out →
      out.2 = msg.drop (comboWidth dsf modes caps dsi) := by
  intro caps
  induction caps with
  | nil =>
    intro msg value dsi out h
    simp [comboCaps] at h
    rw [← h]
    simp [comboWidth]
  | cons cap caps ih =>
    intro msg value dsi out h
    rw [comboCaps] at h
    cases hds : comboDatasets cap (dsf cap) modes (List.range (dsf cap).n) msg value dsi with
    | error e => rw [hds] at h; simp at h
    | ok trip =>
      rw [hds] at h
      obtain ⟨msg2, value2, dsi2⟩ := trip
      dsimp only at h
      obtain ⟨h1, h2⟩ := comboDatasets_count cap (dsf cap) modes _ _ _ _ _ hds
      simp only at h1 h2
      have hrec := ih _ _ _ _ h
      rw [hrec, h2, List.drop_drop, comboWidth]
      congr 1
      rw [h1]
      simp [List.length_range]

/-- A successful combined-mode decode leaves the stored value of a
capability untouched when all of that capability's slots have a clear
presence bit (other capabilities touch only their own keys). -/
theorem comboCaps_untouched (dsf : Nat → DatasetShape) (modes cap : Nat) :
    ∀ (caps : List Nat) (msg : List Nat) (value : PyObj) (dsi : Nat)
      (out : PyObj × List Nat),
      comboCaps dsf modes caps msg value dsi = .ok out →
      capSlotsUnset dsf modes cap caps dsi →
      pyGetKey out.1 (.int cap) = pyGetKey value (.int cap) := by
  intro caps
  induction caps with
  | nil =>
    intro msg value dsi out h _
    simp [comboCaps] at h
    rw [← h]
  | cons c cs ih =>
    intro msg value dsi out h hunset
    obtain ⟨hc, hrest⟩ := hunset
    rw [comboCaps] at h
    by_cases hceq : c = cap
    · subst hceq
      have hall : ∀ idx, idx < (List.range (dsf c).n).length →
          modes.testBit (dsi + idx) = false := by
        intro idx hidx
        exact hc rfl idx (by simpa using hidx)
      rw [comboDatasets_unset c (dsf c) modes _ msg value dsi hall] at h
      dsimp only at h
      have := ih _ _ _ _ h (by simpa using hrest)
      exact this
    · cases hds : comboDatasets c (dsf c) modes (List.range (dsf c).n) msg value dsi with
      | error e => rw [hds] at h; simp at h
      | ok trip =>
        rw [hds] at h
        obtain ⟨msg2, value2, dsi2⟩ := trip
        dsimp only at h
        obtain ⟨h1, h2⟩ := comboDatasets_count c (dsf c) modes _ _ _ _ _ hds
        simp only at h1 h2
        have hpres := comboDatasets_preserve c (dsf c) modes _ _ _ _ _ hds
          (.int cap) (by simp [hceq]; exact fun hh => hceq hh.symm)
        simp only at hpres
        have hrec := ih _ _ _ _ h (by
          have : dsi2 = dsi + (dsf c).n := by
            rw [h1]; simp [List.length_range]
          rw [this]
          exact hrest)
        rw [hrec, hpres]

/-- C1: combined-mode decode.  Slots are enumerated in declaration
order, one per dataset of each requested capability; a successful decode
consumes exactly the summed little-endian byte widths of the present
slots (the remaining buffer is the input dropped by that width); every
capability whose slots are all absent keeps its previously stored value
unchanged.  In the example configuration A(count 2, width 1),
B(count 1, width 4): bitmask `0b011` consumes exactly the two one-byte
values into A's two list entries and leaves B untouched (also shown
through the full `_parse_combined_sensor_values` entry point with its
reserved byte), while bitmask `0b100` consumes exactly four bytes as one
little-endian scalar for B and leaves A untouched. -/
theorem c1_combo_decode :
    (∀ (dsf : Nat → DatasetShape) (modes : Nat) (caps msg : List Nat)
       (value : PyObj) (dsi : Nat) (out : PyObj × List Nat),
      comboCaps dsf modes caps msg value dsi = .ok out →
      out.2 = msg.drop (comboWidth dsf modes caps dsi))
    ∧ (∀ (dsf : Nat → DatasetShape) (modes cap : Nat) (caps msg : List Nat)
         (value : PyObj) (dsi : Nat) (out : PyObj × List Nat),
      comboCaps dsf modes caps msg value dsi = .ok out →
      capSlotsUnset dsf modes cap caps dsi →
      pyGetKey out.1 (.int cap) = pyGetKey value (.int cap))
    ∧ (∀ (a b : Nat) (tail : List Nat) (x y z : PyObj),
      comboCaps comboExampleShapes 3 [1, 2] (a :: b :: tail)
        (.dict [(.int 1, .list [x, y]), (.int 2, z)]) 0
        = .ok (.dict [(.int 1, .list [.int a, .int b]), (.int 2, z)], tail))
    ∧ (∀ (a b : Nat) (tail : List Nat) (x y z : PyObj),
      parseCombinedSensorValues ⟨[1, 2], comboExampleShapes⟩ (0 :: 3 :: a :: b :: tail)
        (.dict [(.int 1, .list [x, y]), (.int 2, z)])
        = .ok (.dict [(.int 1, .list [.int a, .int b]), (.int 2, z)]))
    ∧ (∀ (c0 c1 c2 c3 : Nat) (tail : List Nat) (x y z : PyObj),
      comboCaps comboExampleShapes 4 [1, 2] (c0 :: c1 :: c2 :: c3 :: tail)
        (.dict [(.int 1, .list [x, y]), (.int 2, z)]) 0
        = .ok (.dict [(.int 1, .list [x, y]),
                      (.int 2, .int (leValue [c0, c1, c2, c3]))], tail))
    ∧ (∀ c0 c1 c2 c3 : Nat,
      leValue [c0, c1, c2, c3]
        = c0 + 256 * c1 + 65536 * c2 + 16777216 * c3) := by
  refine ⟨?_, ?_, fun a b tail x y z => rfl, fun a b tail x y z => rfl,
          fun c0 c1 c2 c3 tail x y z => rfl, fun c0 c1 c2 c3 => ?_⟩
  · intro dsf modes caps msg value dsi out h
    exact comboCaps_consumption dsf modes caps msg value dsi out h
  · intro dsf modes cap caps msg value dsi out h hunset
    exact comboCaps_untouched dsf modes cap caps msg value dsi out h hunset
  · simp [leValue]
    ring

/-- Witness for `c1_combo_decode`: the bitmask `0b100` decode of the
example configuration consumes exactly four bytes and leaves capability
1 untouched. -/
theorem c1_combo_decode_witness :
    comboCaps comboExampleShapes 4 [1, 2] [9, 8, 7, 6]
      (.dict [(.int 1, .list [.pynone, .pynone]), (.int 2, .pynone)]) 0
      = .ok (.dict [(.int 1, .list [.pynone, .pynone]),
                    (.int 2, .int (leValue [9, 8, 7, 6]))], [])
    ∧ ([] : List Nat)
        = ([9, 8, 7, 6] : List Nat).drop (comboWidth comboExampleShapes 4 [1, 2] 0)
    ∧ capSlotsUnset comboExampleShapes 4 1 [1, 2] 0
    ∧ pyGetKey (.dict [(.int 1, .list [.pynone, .pynone]),
                       (.int 2, .int (leValue [9, 8, 7, 6]))]) (.int 1)
        = pyGetKey (.dict [(.int 1, .list [.pynone, .pynone]), (.int 2, .pynone)]) (.int 1) := by
  have hunset : capSlotsUnset comboExampleShapes 4 1 [1, 2] 0 := by
    refine ⟨fun _ d hd => ?_, fun hh => by simp at hh, trivial⟩
    have hd2 : d < 2 := by simpa [comboExampleShapes] using hd
    interval_cases d <;> decide
  refine ⟨rfl, ?_, hunset, ?_⟩
  · exact c1_combo_decode.1 comboExampleShapes 4 [1, 2] [9, 8, 7, 6]
      (.dict [(.int 1, .list [.pynone, .pynone]), (.int 2, .pynone)]) 0
      (.dict [(.int 1, .list [.pynone, .pynone]),
              (.int 2, .int (leValue [9, 8, 7, 6]))], []) rfl
  · exact c1_combo_decode.2.1 comboExampleShapes 4 1 [1, 2] [9, 8, 7, 6]
      (.dict [(.int 1, .list [.pynone, .pynone]), (.int 2, .pynone)]) 0
      (.dict [(.int 1, .list [.pynone, .pynone]),
              (.int 2, .int (leValue [9, 8, 7, 6]))], []) rfl hunset

/-- The ramp while-condition `current_step < number_of_steps` over the
rationals is the natural-number bound `cur < rampTickCount ms`. -/
theorem rampCond_iff (ms cur : Nat) :
    ((cur : Rat) < rampNumberOfSteps ms) ↔ cur < rampTickCount ms := by
  rw [rampNumberOfSteps, lt_div_iff₀ (by norm_num : (0 : Rat) < 100)]
  rw [show ((cur : Rat) * 100) = (((cur * 100 : Nat) : Rat)) by push_cast; ring]
  rw [Nat.cast_lt]
  unfold rampTickCount
  omega

/-- The ramp forcing test `current_step == number_of_steps` over the
rationals holds exactly when `100 * cur = ms`. -/
theorem rampEq_iff (ms cur : Nat) :
    (((cur : Nat) : Rat) = rampNumberOfSteps ms) ↔ 100 * cur = ms := by
  rw [rampNumberOfSteps, eq_div_iff (by norm_num : (100 : Rat) ≠ 0)]
  rw [show ((cur : Rat) * 100) = (((100 * cur : Nat) : Rat)) by push_cast; ring]
  rw [Nat.cast_inj]

/-- Closed form of the ramp while-loop: starting at step `cur` with `k`
iterations left, it issues, for each tick index `i`, the truncated
interpolation `int(start + i * stepSize)`, replaced by the exact target
on the tick whose incremented counter equals `ms / 100` exactly. -/
theorem rampLoop_eq (startSpeed targetSpeed : Int) (ms : Nat) :
    ∀ (k cur : Nat), rampTickCount ms - cur = k →
      rampLoop startSpeed targetSpeed ms cur =
        (List.range' cur k).map (fun i =>
          if 100 * (i + 1) = ms then targetSpeed
          else pyInt ((startSpeed : Rat)
            + (i : Rat) * rampSpeedStep targetSpeed startSpeed ms)) := by
  intro k
  induction k with
  | zero =>
    intro cur h
    rw [rampLoop, dif_neg]
    · simp
    · rw [rampCond_iff]
      omega
  | succ k ih =>
    intro cur h
    rw [rampLoop, dif_pos (by rw [rampCond_iff]; omega)]
    dsimp only
    rw [List.range'_succ, List.map_cons]
    congr 1
    · exact if_congr (rampEq_iff ms (cur + 1)) rfl rfl
    · exact ih (cur + 1) (by omega)

/-- Counterexample to C3 as stated: with current speed 0, target 10 and
duration 250 ms the code's loop runs with `number_of_steps = 5/2` (plain
division, not the claimed `ceil = 3`) and its tick 1 issues
`int(0 + 1 * (10 / (5/2))) = 4`, whereas the claimed formula
`round(start + i * (target - start) / ceil(250/100))` gives 3. -/
theorem c3_counterexample :
    rampSpeed ⟨0⟩ 10 250 = .ok [0, 4, 8, 10]
    ∧ rampNumberOfSteps 250 = 5 / 2
    ∧ specRampSteps 250 = 3
    ∧ specRampTick 0 10 250 1 = 3
    ∧ ((4 : Int) ≠ 3) := by
  have hsteps : specRampSteps 250 = 3 := by
    rw [specRampSteps]
    rw [show (((250 : Nat) : Rat) / 100) = 5 / 2 by norm_num]
    rw [Int.ceil_eq_iff]
    constructor <;> norm_num
  have hstep : rampSpeedStep 10 0 250 = 4 := by
    rw [rampSpeedStep, rampNumberOfSteps]
    norm_num
  refine ⟨?_, by rw [rampNumberOfSteps]; norm_num, hsteps, ?_, by norm_num⟩
  · rw [rampSpeed, if_pos (by norm_num), rampSpeedIssued]
    rw [rampLoop_eq 0 10 250 (rampTickCount 250) 0 (by omega)]
    rw [show rampTickCount 250 = 3 from rfl]
    simp only [List.range', List.map_cons, List.map_nil, hstep]
    norm_num [pyInt, Int.floor_eq_iff]
  · rw [specRampTick, hsteps]
    rw [round_eq]
    rw [show ((0 : Int) : Rat) + ((1 : Nat) : Rat) * ((((10 : Int) : Rat) - ((0 : Int) : Rat)) / (((3 : Int) : Rat))) = 10 / 3 by norm_num]
    rw [Int.floor_eq_iff]
    norm_num

/-- C3 (amended): for duration above the 100 ms tick, `ramp_speed`
computes `number_of_steps = durationMs / 100` by exact division (not a
ceiling) and `stepSize = (target - currentSpeed) / number_of_steps`;
the spawned task's tick `i` issues `setSpeed(int(start + i * stepSize))`
with `int()` truncating toward zero (not rounding), except that the tick
whose incremented counter equals `number_of_steps` exactly (possible
only when 100 divides the duration) issues exactly the target; the loop
is followed by one unconditional `setSpeed(target)`, so the last issued
speed — the recorded speed after the ramp runs to completion — equals
the target. -/
theorem c3_ramp_amended (m : MotorState) (targetSpeed : Int) (ms : Nat)
    (h : 100 < ms) :
    rampSpeed m targetSpeed ms =
      .ok (((List.range (rampTickCount ms)).map (fun i =>
          if 100 * (i + 1) = ms then targetSpeed
          else pyInt ((m.speed : Rat)
            + (i : Rat) * rampSpeedStep targetSpeed m.speed ms)))
        ++ [targetSpeed])
    ∧ (rampSpeedIssued m.speed targetSpeed ms).getLast? = some targetSpeed := by
  constructor
  · rw [rampSpeed, if_pos h, rampSpeedIssued]
    rw [rampLoop_eq m.speed targetSpeed ms (rampTickCount ms) 0 (by omega)]
    rw [List.range_eq_range']
  · rw [rampSpeedIssued]
    exact List.getLast?_concat _

/-- Witness for `c3_ramp_amended` on the documented
`ramp_speed(80, 2000)` example. -/
theorem c3_ramp_amended_witness :
    100 < 2000 ∧ (rampSpeedIssued 0 80 2000).getLast? = some 80 :=
  ⟨by norm_num, (c3_ramp_amended ⟨0⟩ 80 2000 (by norm_num)).2⟩
